import Mathlib

/-!
Verification of the MCP_GenImage orchestration core.

This file gives a shallow embedding, in Lean, of the request-orchestration
logic of the MCP_GenImage server (`app/api/mcp_routes.py`,
`app/services/comfyui_client.py`, `app/database/crud.py`,
`app/database/models.py`) and proves (or refutes) the stated properties of
that code.

External effects (HTTP probes, LLM calls, file reads, the random seed, the
database commit succeeding or failing) are supplied by an explicit
environment record, so every function here is a total, executable Lean
function of its inputs.  Python `Optional[str]` values are modelled as
`Option String`, and Python truthiness tests on them (`if s:`) are modelled
by `strTruthy`, which is false exactly on `None` and the empty string.
-/

set_option maxHeartbeats 1600000

/-- Python truthiness of an `Optional[str]` value: `None` and `""` are falsy. -/
def strTruthy : Option String → Bool
  | none => false
  | some s => !s.isEmpty

/-- Python `s or ""` on an `Optional[str]`: the string when truthy, else `""`
(`None` and `""` both collapse to `""`). -/
def pyStr (s : Option String) : String :=
  match s with
  | none => ""
  | some t => t

/-- Decimal-digit accumulator used by `pyInt?`. -/
def digitsToNatAux : List Char → Nat → Option Nat
  | [], acc => some acc
  | c :: cs, acc =>
    if 48 ≤ c.toNat && c.toNat ≤ 57 then
      digitsToNatAux cs (acc * 10 + (c.toNat - 48))
    else none

/-- Python `int(s)` on a settings string, simplified to plain decimal
notation with an optional leading minus (`none` models the raised
`ValueError` on malformed input).  Used for the
PROMPT_ENHANCEMENT_OLLAMA_INSTANCE_ID setting. -/
def pyInt? (s : String) : Option Int :=
  match s.data with
  | [] => none
  | c :: cs =>
    if c = '-' then
      match cs with
      | [] => none
      | _ => (digitsToNatAux cs 0).map (fun n => -(n : Int))
    else (digitsToNatAux (c :: cs) 0).map (fun n => (n : Int))

/-- A row of the `render_types` table (`app/database/models.py`, `RenderType`). -/
structure RenderType where
  id : Nat
  name : String
  workflow_filename : String
  is_visible : Bool
  generation_mode : String
  is_default_for_generation : Bool
  is_default_for_upscale : Bool
deriving DecidableEq, Repr

/-- A row of the `styles` table (`app/database/models.py`, `Style`).
Relationships are flattened to names: `compatible_render_types` is the list of
names of the related render types, `default_render_type` the name of the
optional fallback render type. -/
structure Style where
  name : String
  category : String
  prompt_template : String
  negative_prompt_template : String
  is_default : Bool
  default_render_type : Option String
  compatible_render_types : List String
deriving DecidableEq, Repr

/-- A row of the `comfyui_instances` table (`app/database/models.py`,
`ComfyUIInstance`), with the compatible render types flattened to names. -/
structure ComfyUIInstance where
  id : Nat
  name : String
  base_url : String
  is_active : Bool
  compatible_render_types : List String
deriving DecidableEq, Repr

/-- A row of the `ollama_instances` table (`app/database/models.py`,
`OllamaInstance`). -/
structure OllamaInstance where
  id : Nat
  name : String
  base_url : String
  is_active : Bool
deriving DecidableEq, Repr

/-- The database contents visible to the orchestration code: table rows in
iteration (primary key) order, plus the flat key-value settings store. -/
structure DB where
  render_types : List RenderType
  styles : List Style
  comfyui_instances : List ComfyUIInstance
  ollama_instances : List OllamaInstance
  settings : List (String × String)
deriving DecidableEq, Repr

/-- Model of `crud.get_style_by_name`: first style with the given (unique) name. -/
def get_style_by_name (db : DB) (name : String) : Option Style :=
  db.styles.find? (fun s => s.name == name)

/-- Model of `crud.get_default_styles`: all styles flagged `is_default`. -/
def get_default_styles (db : DB) : List Style :=
  db.styles.filter (fun s => s.is_default)

/-- Model of `crud.get_render_type_by_name`: first render type with the given name. -/
def get_render_type_by_name (db : DB) (name : String) : Option RenderType :=
  db.render_types.find? (fun rt => rt.name == name)

/-- Model of `crud.get_default_render_type_for_generation`. -/
def get_default_render_type_for_generation (db : DB) : Option RenderType :=
  db.render_types.find? (fun rt => rt.is_default_for_generation)

/-- Model of `crud.get_default_render_type_for_upscale`. -/
def get_default_render_type_for_upscale (db : DB) : Option RenderType :=
  db.render_types.find? (fun rt => rt.is_default_for_upscale)

/-- Model of `crud.get_render_type_by_id`. -/
def get_render_type_by_id (db : DB) (rid : Nat) : Option RenderType :=
  db.render_types.find? (fun rt => rt.id == rid)

/-- Model of `crud.get_all_active_comfyui_instances`. -/
def get_all_active_comfyui_instances (db : DB) : List ComfyUIInstance :=
  db.comfyui_instances.filter (fun inst => inst.is_active)

/-- Model of `crud.get_ollama_instance_by_id` (the id comes from `int()` of a settings
string, hence `Int`). -/
def get_ollama_instance_by_id (db : DB) (iid : Int) : Option OllamaInstance :=
  db.ollama_instances.find? (fun inst => (inst.id : Int) == iid)

/-- Model of `crud.get_all_settings`: dictionary lookup in the settings store. -/
def get_setting (db : DB) (key : String) : Option String :=
  (db.settings.find? (fun kv => kv.1 == key)).map (fun kv => kv.2)

/- ### Instance selection (`mcp_routes._select_best_comfyui_instance`) -/

/-- The active instances compatible with the requested render type name:
`if not render_type_name or any(rt.name == render_type_name for rt in
inst.compatible_render_types)` over the active instances. -/
def compatibleInstances (db : DB) (render_type_name : Option String) :
    List ComfyUIInstance :=
  (get_all_active_comfyui_instances db).filter (fun inst =>
    !(strTruthy render_type_name) ||
      inst.compatible_render_types.any (fun rt =>
        rt == pyStr render_type_name))

/-- One probe result per compatible instance, in order.  `probe inst = none`
models `ComfyUIConnectionError` from `ComfyUIClient.get_queue_size` (mapped to
`float('inf')` by the source); `some q` is the reported queue size. -/
def queueSizes (db : DB) (render_type_name : Option String)
    (probe : ComfyUIInstance → Option Nat) :
    List (ComfyUIInstance × Option Nat) :=
  (compatibleInstances db render_type_name).map (fun inst => (inst, probe inst))

/-- The `valid_queues` list: the probe results that are not `float('inf')`. -/
def validQueues (db : DB) (render_type_name : Option String)
    (probe : ComfyUIInstance → Option Nat) :
    List (ComfyUIInstance × Nat) :=
  (queueSizes db render_type_name probe).filterMap (fun p =>
    match p.2 with
    | some q => some (p.1, q)
    | none => none)

/-- Python `min(xs, key=lambda item: item[1])`: the first element with minimal
second component (CPython `min` only replaces the best on a strictly smaller
key). -/
def minByQueue (x : ComfyUIInstance × Nat) (xs : List (ComfyUIInstance × Nat)) :
    ComfyUIInstance × Nat :=
  xs.foldl (fun best y => if y.2 < best.2 then y else best) x

/-- Model of `mcp_routes._select_best_comfyui_instance`: raising `ValueError` is
modelled as `Except.error` carrying the message. -/
def select_best_comfyui_instance (db : DB) (render_type_name : Option String)
    (probe : ComfyUIInstance → Option Nat) : Except String ComfyUIInstance :=
  if (get_all_active_comfyui_instances db).isEmpty then
    .error ("No active ComfyUI servers configured.")
  else if (compatibleInstances db render_type_name).isEmpty then
    .error ("No active server is compatible with the requested render type.")
  else
    match validQueues db render_type_name probe with
    | [] => .error ("Could not connect to any compatible ComfyUI servers.")
    | x :: xs => .ok (minByQueue x xs).1

/- ### Render-type compatibility resolution (`run_generation_task`, the loop
over `style_names_to_apply`) -/

/-- One iteration of the resolution loop in `run_generation_task`:

```python
style = crud.get_style_by_name(db, name=style_name)
if not style: continue
if render_type_name and not any(rt.name == render_type_name for rt in style.compatible_render_types):
    if style.default_render_type: render_type_name = style.default_render_type.name
elif not render_type_name and style.default_render_type:
    render_type_name = style.default_render_type.name
```
-/
def resolveStep (db : DB) (acc : Option String) (style_name : String) :
    Option String :=
  match get_style_by_name db style_name with
  | none => acc
  | some style =>
    if strTruthy acc &&
        !(style.compatible_render_types.any (fun rt => rt == pyStr acc)) then
      match style.default_render_type with
      | some fb => some fb
      | none => acc
    else if !(strTruthy acc) then
      match style.default_render_type with
      | some fb => some fb
      | none => acc
    else acc

/-- The whole resolution loop, folding `resolveStep` over the applied style
names starting from the caller-supplied render type. -/
def resolveRenderType (db : DB) (style_names : List String)
    (render_type_name : Option String) : Option String :=
  style_names.foldl (resolveStep db) render_type_name

/-- The applied style names (`style_names_to_apply` in the source): the
caller's list, or the names of the default-flagged styles when the caller's
list is empty and at least one default style exists. -/
def styleNamesToApply (db : DB) (style_names : List String) : List String :=
  if style_names.isEmpty then
    let default_styles := get_default_styles db
    if default_styles.isEmpty then style_names
    else default_styles.map (fun s => s.name)
  else style_names

/- ### Prompt assembly (`run_generation_task`, `positive_parts` /
`negative_parts`) -/

/-- Python `", ".join(filter(None, parts))`: join the non-empty parts with the fixed
separator.  (A Python `None` part is filtered exactly like `""`, so `None`
bases are represented by `""` here.) -/
def joinNonEmpty (parts : List String) : String :=
  String.intercalate (", ") (parts.filter (fun s => !s.isEmpty))

/-- The `positive_parts` list: the base prompt followed by the `prompt_template` of each
applied style that exists in the database, in order. -/
def positiveParts (db : DB) (base : String) (names : List String) :
    List String :=
  base :: (names.filterMap (get_style_by_name db)).map (fun s => s.prompt_template)

/-- The `negative_parts` list: mirror of `positiveParts` with
`negative_prompt_template`. -/
def negativeParts (db : DB) (base : String) (names : List String) :
    List String :=
  base :: (names.filterMap (get_style_by_name db)).map
    (fun s => s.negative_prompt_template)

/- ### Workflow graphs (`app/workflows/*.json` as manipulated by
`run_generation_task` and `_find_node_id_by_title`) -/

/-- A value stored in a workflow node input slot.  Numeric slot values (seed,
denoise, width, height) are modelled as rationals; their arithmetic is never
used, only storage and equality. -/
inductive WfValue where
  | str (s : String)
  | num (q : Rat)
deriving DecidableEq, Repr

/-- One node of a workflow graph: its id, its optional `_meta.title`, and its
`inputs` dictionary as an association list in insertion order. -/
structure WorkflowNode where
  id : String
  title : Option String
  inputs : List (String × WfValue)
deriving DecidableEq, Repr

/-- A workflow graph: the nodes in dictionary insertion order. -/
def Workflow := List WorkflowNode
deriving DecidableEq, Repr

/-- Model of `mcp_routes._find_node_id_by_title`: id of the first node whose
`_meta.title` equals the given title. -/
def find_node_id_by_title (workflow : Workflow) (title : String) :
    Option String :=
  (List.find? (fun node => node.title == some title) workflow).map
    (fun node => node.id)

/-- Python dict membership test `key in inputs`. -/
def hasInput (inputs : List (String × WfValue)) (key : String) : Bool :=
  inputs.any (fun kv => kv.1 == key)

/-- Python dict assignment `inputs[key] = v`: overwrite in place if the key
exists, append otherwise. -/
def setInput (inputs : List (String × WfValue)) (key : String) (v : WfValue) :
    List (String × WfValue) :=
  if hasInput inputs key then
    inputs.map (fun kv => if kv.1 == key then (kv.1, v) else kv)
  else inputs ++ [(key, v)]

/-- Apply an update to the inputs of the node with the given id. -/
def updateNodeInputs (workflow : Workflow) (node_id : String)
    (f : List (String × WfValue) → List (String × WfValue)) : Workflow :=
  List.map (fun node =>
    if node.id == node_id then
      { node with inputs := f node.inputs }
    else node) workflow

/-- The `set_prompt` closure in `run_generation_task`: write to the `Text` slot if present,
else to the `text` slot if present, else do nothing. -/
def setPromptInputs (inputs : List (String × WfValue)) (text : String) :
    List (String × WfValue) :=
  if hasInput inputs ("Text") then setInput inputs ("Text") (.str text)
  else if hasInput inputs ("text") then setInput inputs ("text") (.str text)
  else inputs

/-- Prompt injection: `if final_prompt and (node_id := _find_node_id_by_title(
workflow, title)): set_prompt(node_id, final_prompt)`. -/
def injectPrompt (workflow : Workflow) (title : String)
    (text : Option String) : Workflow :=
  if strTruthy text then
    match find_node_id_by_title workflow title with
    | some node_id =>
        updateNodeInputs workflow node_id
          (fun inputs => setPromptInputs inputs (pyStr text))
    | none => workflow
  else workflow

/-- Seed injection: if an `MCP_SEED` node exists, write the seed into its
`Value` slot if that key is present, else into its `value` slot (creating it);
if no such node exists the step is skipped. -/
def injectSeed (workflow : Workflow) (final_seed : Rat) : Workflow :=
  match find_node_id_by_title workflow ("MCP_SEED") with
  | some node_id =>
      updateNodeInputs workflow node_id (fun inputs =>
        if hasInput inputs ("Value") then setInput inputs ("Value") (.num final_seed)
        else setInput inputs ("value") (.num final_seed))
  | none => workflow

/-- Resolution injection for `generate_image`: `workflow[node_id]["inputs"]
.update({"width": w, "height": h})` when an aspect ratio was given and an
`MCP_RESOLUTION` node exists.  The width/height table is `ASPECT_RATIOS` with
`DEFAULT_ASPECT_RATIO` as fallback. -/
def aspectRatioTable : List (String × (Rat × Rat)) :=
  [("1:1", (1024, 1024)), ("16:9", (1344, 768)), ("9:16", (768, 1344)),
   ("4:3", (1152, 896)), ("3:4", (896, 1152))]

/-- Python `ASPECT_RATIOS.get(args.aspect_ratio, DEFAULT_ASPECT_RATIO)`. -/
def aspectRatioLookup (ar : String) : Rat × Rat :=
  ((aspectRatioTable.find? (fun kv => kv.1 == ar)).map (fun kv => kv.2)).getD
    (1024, 1024)

/-- Resolution injection. -/
def injectResolution (workflow : Workflow) (aspect_ratio : Option String) :
    Workflow :=
  if strTruthy aspect_ratio then
    match find_node_id_by_title workflow ("MCP_RESOLUTION") with
    | some node_id =>
        let wh := aspectRatioLookup (pyStr aspect_ratio)
        updateNodeInputs workflow node_id (fun inputs =>
          setInput (setInput inputs ("width") (.num wh.1)) ("height") (.num wh.2))
    | none => workflow
  else workflow

/-- Denoise injection for `upscale_image`: write the denoise value into the
`value` slot of the `MCP_DENOISE` node when it exists. -/
def injectDenoise (workflow : Workflow) (denoise : Rat) : Workflow :=
  match find_node_id_by_title workflow ("MCP_DENOISE") with
  | some node_id =>
      updateNodeInputs workflow node_id (fun inputs =>
        setInput inputs ("value") (.num denoise))
  | none => workflow

/- ### The kwarg mismatch at the upload call site
(`mcp_routes.run_generation_task` line 234 vs
`ComfyUIClient.upload_image_from_url` line 113) -/

/-- Keyword parameter names declared by `ComfyUIClient.upload_image_from_url`
(besides `self`): `async def upload_image_from_url(self, image_url: str)`. -/
def upload_image_from_url_param_names : List String := ["image_url"]

/-- Keyword argument names passed at the call site in `run_generation_task`:
`upload_image_from_url(image_url=..., server_public_url_base=...)`. -/
def upload_call_kwarg_names : List String :=
  ["image_url", "server_public_url_base"]

/-- Python raises `TypeError` at call time when a keyword argument does not
match a declared parameter. -/
def uploadCallHasUnexpectedKwarg : Bool :=
  upload_call_kwarg_names.any (fun k =>
    !(upload_image_from_url_param_names.contains k))

/-- The two tools dispatched to `run_generation_task`. -/
inductive ToolName where
  | generate_image
  | upscale_image
deriving DecidableEq, Repr

/-- The validated request arguments (`GenerateImageParams` /
`UpscaleImageParams` from `app/schemas.py`), flattened into one record; fields
absent from a tool's schema take their `getattr(..., default)` value for that
tool. -/
structure TaskArgs where
  prompt : Option String
  negative_prompt : Option String
  style_names : List String
  aspect_ratio : Option String
  render_type : Option String
  seed : Option Int
  enhance_prompt : Bool
  input_image_url : String
  denoise : Option Rat
deriving DecidableEq, Repr

/-- The external world as seen by one run of the background task.  Each field
is the outcome of one side-effecting call in the source; an `Except` error is
the raised exception's message.  `llm_positive` / `llm_negative` error with
`Unit` because only `OllamaError` is caught at that site. -/
structure TaskEnv where
  probe : ComfyUIInstance → Option Nat
  random_seed : Int
  llm_positive : Except Unit String
  llm_negative : Except Unit String
  workflow_file : Except String Workflow
  denoise_setting : Except String Rat
  upload : Except String String
  run_workflow : Except String String
  log_write_fails : Bool
  duration_ms : Int

/-- The `log_data` dictionary of `run_generation_task`, which becomes the
`GenerationLog` row. -/
structure LogData where
  positive_prompt : String
  negative_prompt : String
  status : String
  render_type_name : Option String
  style_names : String
  aspect_ratio : Option String
  seed : Option Int
  llm_enhanced : Bool
  comfyui_instance_id : Option Nat
  image_filename : Option String
  error_message : Option String
  duration_ms : Option Int
deriving DecidableEq, Repr

/-- The initial `log_data` dictionary (lines 119-125 of `mcp_routes.py`),
with `getattr` defaults applied for fields missing from the upscale schema. -/
def initLogData (tool : ToolName) (args : TaskArgs) : LogData :=
  { positive_prompt := pyStr args.prompt
    negative_prompt :=
      match tool with
      | .generate_image => pyStr args.negative_prompt
      | .upscale_image => ""
    status := "FAILED"
    render_type_name := args.render_type
    style_names :=
      match tool with
      | .generate_image => String.intercalate (", ") args.style_names
      | .upscale_image => ""
    aspect_ratio :=
      match tool with
      | .generate_image => args.aspect_ratio
      | .upscale_image => none
    seed := args.seed
    llm_enhanced := false
    comfyui_instance_id := none
    image_filename := none
    error_message := none
    duration_ms := none }

/-- The prompt-enhancement step (lines 137-157): returns the positive prompt,
negative prompt and `llm_enhanced` flag after the step.  Two exceptions can
escape it: the `int()` conversion of a malformed instance-id setting, and the
`ValueError` raised by the `OllamaClient` constructor when the active
instance's `base_url` is Python-falsy (the empty string) — neither is an
`OllamaError`, so `except OllamaError` does not catch them and they abort the
whole request.  An `OllamaError` from either LLM call is caught in place.
Note that when the positive-prompt call succeeds and the negative-prompt call
then fails, the already-enhanced positive prompt is kept while `llm_enhanced`
stays false. -/
def enhanceStage (db : DB) (env : TaskEnv) (args : TaskArgs) :
    Except String (String × String × Bool) :=
  let pos0 := pyStr args.prompt
  let neg0 := pyStr args.negative_prompt
  if !args.enhance_prompt then .ok (pos0, neg0, false)
  else
    let iid_str := get_setting db ("PROMPT_ENHANCEMENT_OLLAMA_INSTANCE_ID")
    let model := get_setting db ("PROMPT_ENHANCEMENT_MODEL_NAME")
    if strTruthy iid_str && strTruthy model then
      match pyInt? (pyStr iid_str) with
      | none => .error ("invalid literal for int() with base 10")
      | some iid =>
        match get_ollama_instance_by_id db iid with
        | some inst =>
          if inst.is_active then
            if inst.base_url.isEmpty then
              .error ("Ollama API URL and model name are required.")
            else
              match env.llm_positive with
              | .error _ => .ok (pos0, neg0, false)
              | .ok p =>
                match env.llm_negative with
                | .error _ => .ok (p, neg0, false)
                | .ok n => .ok (p, n, true)
          else .ok (pos0, neg0, false)
        | none => .ok (pos0, neg0, false)
    else .ok (pos0, neg0, false)

/-- The state of the task after the prompt-assembly phase (up to line 188). -/
structure Pre where
  log : LogData
  final_seed : Int
  final_prompt : Option String
  final_negative_prompt : Option String
  render_type_name : Option String
deriving DecidableEq, Repr

/-- Lines 128-188 of `run_generation_task`: seed resolution, then (for
`generate_image`) enhancement, default-style substitution, render-type
resolution and prompt concatenation; for `upscale_image` the prompts are taken
directly from the arguments.  An error carries the `log_data` state at the
raise point. -/
def preamble (tool : ToolName) (args : TaskArgs) (db : DB) (env : TaskEnv) :
    Except (String × LogData) Pre :=
  let final_seed := args.seed.getD env.random_seed
  let ld1 := { initLogData tool args with seed := some final_seed }
  match tool with
  | .generate_image =>
    match enhanceStage db env args with
    | .error msg => .error (msg, ld1)
    | .ok (pos, neg, flag) =>
      let names := styleNamesToApply db args.style_names
      let rtn := resolveRenderType db names args.render_type
      let fp := joinNonEmpty (positiveParts db pos names)
      let fn := joinNonEmpty (negativeParts db neg names)
      let ld2 := { ld1 with
        positive_prompt := fp
        negative_prompt := fn
        llm_enhanced := flag }
      .ok { log := ld2, final_seed := final_seed, final_prompt := some fp,
            final_negative_prompt := some fn, render_type_name := rtn }
  | .upscale_image =>
    let fp := args.prompt
    let ld2 := { ld1 with
      positive_prompt := pyStr fp
      negative_prompt := "" }
    .ok { log := ld2, final_seed := final_seed, final_prompt := fp,
          final_negative_prompt := some (""), render_type_name := args.render_type }

/-- Lines 198-261 of `run_generation_task`, after the render-type name `rtn`
is settled: render-type lookup, instance selection, workflow load and
parameterization, the upscale upload and input-image injection, and the final
submission.  The `Bool` in the result and in the error is whether the workflow
was submitted to the backend (the `run_workflow_and_get_image` call was
reached). -/
def restStagesWithRtn (tool : ToolName) (args : TaskArgs) (db : DB)
    (env : TaskEnv) (pre : Pre) (rtn : String) :
    Except (String × LogData × Bool) (LogData × Bool) :=
    let ld3 := { pre.log with render_type_name := some rtn }
    match get_render_type_by_name db rtn with
    | none => .error ("Render type not found.", ld3, false)
    | some _ =>
      match select_best_comfyui_instance db (some rtn) env.probe with
      | .error msg => .error (msg, ld3, false)
      | .ok selected =>
        let ld4 := { ld3 with comfyui_instance_id := some selected.id }
        match env.workflow_file with
        | .error msg => .error (msg, ld4, false)
        | .ok wf0 =>
          let wf1 := injectPrompt wf0 ("MCP_INPUT_PROMPT") pre.final_prompt
          let wf2 :=
            injectPrompt wf1 ("MCP_INPUT_NEGATIVE_PROMPT")
              pre.final_negative_prompt
          let wf3 := injectSeed wf2 (pre.final_seed : Rat)
          let afterTool : Except (String × LogData × Bool) Workflow :=
            match tool with
            | .generate_image => .ok (injectResolution wf3 args.aspect_ratio)
            | .upscale_image =>
              let denoiseRes : Except String Rat :=
                match args.denoise with
                | some d => .ok d
                | none => env.denoise_setting
              match denoiseRes with
              | .error msg => .error (msg, ld4, false)
              | .ok denoise =>
                let wf4 := injectDenoise wf3 denoise
                let uploadRes : Except String String :=
                  if uploadCallHasUnexpectedKwarg then
                    .error ("upload_image_from_url() got an unexpected keyword argument server_public_url_base")
                  else env.upload
                match uploadRes with
                | .error msg => .error (msg, ld4, false)
                | .ok image_filename =>
                  match find_node_id_by_title wf4 ("MCP_INPUT_IMAGE") with
                  | none =>
                    .error ("Upscale workflow missing node MCP_INPUT_IMAGE.",
                      ld4, false)
                  | some node_id =>
                    .ok (updateNodeInputs wf4 node_id (fun inputs =>
                      setInput inputs ("image") (.str image_filename)))
          match afterTool with
          | .error e => .error e
          | .ok _wf =>
            if !(strTruthy (get_setting db ("OUTPUT_URL_BASE"))) then
              .error ("OUTPUT_URL_BASE is not configured.", ld4, false)
            else
              match env.run_workflow with
              | .error msg => .error (msg, ld4, true)
              | .ok image_url =>
                let fname := pyStr (image_url.splitOn ("/")).getLast?
                .ok ({ ld4 with
                  status := "SUCCESS"
                  image_filename := some fname }, true)

/-- Lines 190-261 of `run_generation_task`: default the render-type name when
none was resolved (raising a domain error when no default is configured for
the tool), then run `restStagesWithRtn`. -/
def restStages (tool : ToolName) (args : TaskArgs) (db : DB) (env : TaskEnv)
    (pre : Pre) : Except (String × LogData × Bool) (LogData × Bool) :=
  let step1 : Except (String × LogData × Bool) String :=
    if strTruthy pre.render_type_name then .ok (pyStr pre.render_type_name)
    else
      match tool with
      | .generate_image =>
        match get_default_render_type_for_generation db with
        | some rt => .ok rt.name
        | none => .error ("No default render type configured.", pre.log, false)
      | .upscale_image =>
        match get_default_render_type_for_upscale db with
        | some rt => .ok rt.name
        | none => .error ("No default render type configured.", pre.log, false)
  match step1 with
  | .error e => .error e
  | .ok rtn => restStagesWithRtn tool args db env pre rtn

/-- The whole `try` block of `run_generation_task`. -/
def runBody (tool : ToolName) (args : TaskArgs) (db : DB) (env : TaskEnv) :
    Except (String × LogData × Bool) (LogData × Bool) :=
  match preamble tool args db env with
  | .error (msg, ld) => .error (msg, ld, false)
  | .ok pre => restStages tool args db env pre

/- ### Stream messages and task assembly -/

/-- A message published on a request stream by
`manager.send_mcp_message` (`WebSocketManager` never lets a send failure
escape, and a missing subscriber makes the publish a no-op, so publishing
never raises). -/
inductive Msg where
  | chunkResult (stream_id : String)
  | chunkError (stream_id : String) (message : String)
  | streamEnd (stream_id : String)
deriving DecidableEq, Repr

/-- The observable outcome of one `run_generation_task` run: the messages
published on the stream in order, the number of `create_generation_log`
attempts, the rows actually persisted, whether the workflow was submitted to
the backend, and the final `log_data`. -/
structure TaskRun where
  messages : List Msg
  log_attempts : Nat
  log_rows : List LogData
  submitted : Bool
  log_data : LogData
deriving DecidableEq, Repr

/-- Model of `run_generation_task`: run the `try` body, publish one `stream/chunk`
carrying the result or the error, then in `finally` set the duration, attempt
exactly one log write (`_log_generation_result` catches any write failure) and
publish one `stream/end`. -/
def run_generation_task (tool : ToolName) (args : TaskArgs) (db : DB)
    (env : TaskEnv) (stream_id : String) : TaskRun :=
  match runBody tool args db env with
  | .ok (ld, sub) =>
    let ld2 := { ld with duration_ms := some env.duration_ms }
    { messages := [.chunkResult stream_id, .streamEnd stream_id]
      log_attempts := 1
      log_rows := if env.log_write_fails then [] else [ld2]
      submitted := sub
      log_data := ld2 }
  | .error (msg, ld, sub) =>
    let ld2 := { ld with
      error_message := some msg
      duration_ms := some env.duration_ms }
    { messages := [.chunkError stream_id msg, .streamEnd stream_id]
      log_attempts := 1
      log_rows := if env.log_write_fails then [] else [ld2]
      submitted := sub
      log_data := ld2 }

/- ### The background description task (`mcp_routes.run_description_task`) -/

/-- A JSON-RPC request id (`JsonRpcId = Union[str, int, None]`). -/
inductive RpcId where
  | str (s : String)
  | num (n : Int)
  | null
deriving DecidableEq, Repr

/-- An HTTP response of the `/mcp` endpoint.  Every branch of `mcp_endpoint`
returns a `JSONResponse` whose body is a JSON-RPC envelope;
`create_error_response` always uses HTTP status 200. -/
structure RpcResponse where
  status_code : Nat
  id : RpcId
  error_code : Option Int
  error_message : Option String
deriving DecidableEq, Repr

/-- Model of `mcp_routes.create_error_response`. -/
def create_error_response (rid : RpcId) (code : Int) (message : String) :
    RpcResponse :=
  { status_code := 200, id := rid, error_code := some code,
    error_message := some message }

/-- The exception raised (if any) during the `tools/call` `try` block in
`mcp_endpoint`: Pydantic `ValidationError`, `ValueError` (domain error), or
anything else. -/
inductive SetupExc where
  | validationError
  | valueError (message : String)
  | otherError
deriving DecidableEq, Repr

/-- Model of `mcp_routes.mcp_endpoint` at envelope granularity.  `req = none` models a
request body that fails `await request.json()` or
`JsonRpcRequest.model_validate`; otherwise `req` carries the method and id.
`setup` is the outcome of the `tools/call` `try` block (validation of the
params, tool dispatch, stream setup); its exceptions map to the JSON-RPC
codes in the three `except` clauses. -/
def mcp_endpoint (req : Option (String × RpcId))
    (setup : Except SetupExc Unit) : RpcResponse :=
  match req with
  | none => create_error_response .null (-32700) ("Invalid JSON received.")
  | some (method, rid) =>
    if method == "tools/list" then
      { status_code := 200, id := rid, error_code := none,
        error_message := none }
    else if method == "tools/call" then
      match setup with
      | .ok _ =>
        { status_code := 200, id := rid, error_code := none,
          error_message := none }
      | .error .validationError =>
        create_error_response rid (-32602) ("Invalid parameters.")
      | .error (.valueError msg) => create_error_response rid (-32000) msg
      | .error .otherError =>
        create_error_response rid (-32603) ("Internal server error.")
    else create_error_response rid (-32601) ("Method not found.")

/- ### Default render type per mode (`crud.set_default_render_type_for_mode`)
-/

/-- The `mode: Literal["generation", "upscale"]` parameter. -/
inductive DefaultMode where
  | generation
  | upscale
deriving DecidableEq, Repr

/-- The statement `current_default.is_default_for_generation = False` in
`set_default_render_type_for_mode`: unset the flag on the first row that
carries it (identified by primary key), if any. -/
def unsetFirstGenDefault (table : List RenderType) : List RenderType :=
  match table.find? (fun rt => rt.is_default_for_generation) with
  | some c => table.map (fun (rt : RenderType) =>
      if rt.id == c.id then { rt with is_default_for_generation := false }
      else rt)
  | none => table

/-- Mirror of `unsetFirstGenDefault` for the upscale flag. -/
def unsetFirstUpDefault (table : List RenderType) : List RenderType :=
  match table.find? (fun rt => rt.is_default_for_upscale) with
  | some c => table.map (fun (rt : RenderType) =>
      if rt.id == c.id then { rt with is_default_for_upscale := false }
      else rt)
  | none => table

/-- The statement `target_render_type.is_default_for_generation = True`: set the flag on
the row with the given primary key. -/
def setGenDefaultOn (table : List RenderType) (rid : Nat) : List RenderType :=
  table.map (fun (rt : RenderType) =>
    if rt.id == rid then { rt with is_default_for_generation := true }
    else rt)

/-- Mirror of `setGenDefaultOn` for the upscale flag. -/
def setUpDefaultOn (table : List RenderType) (rid : Nat) : List RenderType :=
  table.map (fun (rt : RenderType) =>
    if rt.id == rid then { rt with is_default_for_upscale := true }
    else rt)

/-- Model of `crud.set_default_render_type_for_mode`, as a pure transformation of the
`render_types` table.  Returns the refreshed target row (or `None`) and the
new table state: find the target by id (missing id refuses), refuse when the
target's generation mode does not match the requested mode, otherwise unset
the current default for that mode and set the target's flag. -/
def set_default_render_type_for_mode (table : List RenderType) (rid : Nat)
    (mode : DefaultMode) : Option RenderType × List RenderType :=
  match table.find? (fun rt => rt.id == rid) with
  | none => (none, table)
  | some target =>
    match mode with
    | .generation =>
      if target.generation_mode != "image_generation" then (none, table)
      else
        let table2 := setGenDefaultOn (unsetFirstGenDefault table) rid
        (table2.find? (fun rt => rt.id == rid), table2)
    | .upscale =>
      if target.generation_mode != "upscale" then (none, table)
      else
        let table2 := setUpDefaultOn (unsetFirstUpDefault table) rid
        (table2.find? (fun rt => rt.id == rid), table2)

/- ### Concrete fixtures used by witnesses and counterexamples -/

/-- Fixture: first active instance (queue size 3 under `w1probe`). -/
def w1instA : ComfyUIInstance :=
  { id := 1, name := "a", base_url := "u1", is_active := true,
    compatible_render_types := ["T"] }

/-- Fixture: second active instance (queue size 0 under `w1probe`). -/
def w1instB : ComfyUIInstance :=
  { id := 2, name := "b", base_url := "u2", is_active := true,
    compatible_render_types := ["T"] }

/-- Fixture database for the C1 witness: two active compatible backends. -/
def w1db : DB :=
  { render_types := [], styles := [], comfyui_instances := [w1instA, w1instB],
    ollama_instances := [], settings := [] }

/-- Fixture probe: queue 3 for instance 1, queue 0 for instance 2. -/
def w1probe : ComfyUIInstance → Option Nat :=
  fun inst => if inst.id == 1 then some 3 else some 0

/-- Fixture style for the C2 counterexample: declares a non-empty
compatibility set (only render type A) and no fallback render type. -/
def cex2style : Style :=
  { name := "S1", category := "cat", prompt_template := "tpl",
    negative_prompt_template := "", is_default := false,
    default_render_type := none, compatible_render_types := ["A"] }

/-- Fixture render type B for the C2 counterexample. -/
def cex2rtB : RenderType :=
  { id := 1, name := "B", workflow_filename := "b.json", is_visible := true,
    generation_mode := "image_generation", is_default_for_generation := false,
    is_default_for_upscale := false }

/-- Fixture backend instance compatible with B. -/
def cex2inst : ComfyUIInstance :=
  { id := 1, name := "i", base_url := "u", is_active := true,
    compatible_render_types := ["B"] }

/-- Fixture database for the C2 counterexample. -/
def cex2db : DB :=
  { render_types := [cex2rtB], styles := [cex2style],
    comfyui_instances := [cex2inst], ollama_instances := [],
    settings := [("OUTPUT_URL_BASE", "http://out")] }

/-- Fixture environment where every external call succeeds. -/
def cex2env : TaskEnv :=
  { probe := fun _ => some 0, random_seed := 7, llm_positive := .error (),
    llm_negative := .error (), workflow_file := .ok [],
    denoise_setting := .ok 0, upload := .error ("unused"),
    run_workflow := .ok ("http://out/img.png"), log_write_fails := false,
    duration_ms := 5 }

/-- Fixture request: `generate_image` with style S1 and render type B. -/
def cex2args : TaskArgs :=
  { prompt := some ("p"), negative_prompt := some (""), style_names := ["S1"],
    aspect_ratio := none, render_type := some ("B"), seed := some 4,
    enhance_prompt := false, input_image_url := "", denoise := none }

/-- Fixture style for the C2 witness: compatible only with A, fallback C. -/
def w2style : Style :=
  { name := "S2", category := "cat", prompt_template := "",
    negative_prompt_template := "", is_default := false,
    default_render_type := some ("C"), compatible_render_types := ["A"] }

/-- Fixture database for the C2 witness. -/
def w2db : DB :=
  { render_types := [], styles := [w2style], comfyui_instances := [],
    ollama_instances := [], settings := [] }

/-- Fixture default style for the C7 witness. -/
def w7style : Style :=
  { name := "D", category := "c", prompt_template := "frag",
    negative_prompt_template := "nfrag", is_default := true,
    default_render_type := none, compatible_render_types := [] }

/-- Fixture database for the C7 witness: one default style. -/
def w7db : DB :=
  { render_types := [], styles := [w7style], comfyui_instances := [],
    ollama_instances := [], settings := [] }

/-- Fixture `generate_image` arguments for the C7 witness: no styles given,
enhancement off. -/
def w7args : TaskArgs :=
  { prompt := some ("base"), negative_prompt := some ("nbase"),
    style_names := [], aspect_ratio := none, render_type := none,
    seed := some 1, enhance_prompt := false, input_image_url := "",
    denoise := none }

/-- Fixture environment for the C7 witness (later stages fail; the prompt
assembly already happened). -/
def w7env : TaskEnv :=
  { probe := fun _ => none, random_seed := 1, llm_positive := .error (),
    llm_negative := .error (), workflow_file := .error ("nofile"),
    denoise_setting := .ok 0, upload := .error ("x"),
    run_workflow := .error ("x"), log_write_fails := false,
    duration_ms := 1 }

/-- Fixture database for the C8 counterexample and witness: enhancement fully
configured with an active instance. -/
def cex8db : DB :=
  { render_types := [], styles := [], comfyui_instances := [],
    ollama_instances :=
      [{ id := 3, name := "oll", base_url := "u", is_active := true }],
    settings := [("PROMPT_ENHANCEMENT_OLLAMA_INSTANCE_ID", "3"),
                 ("PROMPT_ENHANCEMENT_MODEL_NAME", "m")] }

/-- Fixture environment for the C8 counterexample: the positive-prompt LLM
call succeeds, the negative-prompt LLM call then fails. -/
def cex8env : TaskEnv :=
  { probe := fun _ => none, random_seed := 1,
    llm_positive := .ok ("ENHANCED"), llm_negative := .error (),
    workflow_file := .error ("nofile"), denoise_setting := .ok 0,
    upload := .error ("x"), run_workflow := .error ("x"),
    log_write_fails := false, duration_ms := 1 }

/-- Fixture `generate_image` arguments for the C8 counterexample:
enhancement requested. -/
def cex8args : TaskArgs :=
  { prompt := some ("orig"), negative_prompt := some (""),
    style_names := [], aspect_ratio := none, render_type := none,
    seed := some 1, enhance_prompt := true, input_image_url := "",
    denoise := none }

/-- Fixture database for the C8 witness's fatal branch: enhancement
configured, the referenced instance active but with an empty base URL, so
the `OllamaClient` constructor raises. -/
def w8dbEmptyUrl : DB :=
  { render_types := [], styles := [], comfyui_instances := [],
    ollama_instances :=
      [{ id := 3, name := "oll", base_url := "", is_active := true }],
    settings := [("PROMPT_ENHANCEMENT_OLLAMA_INSTANCE_ID", "3"),
                 ("PROMPT_ENHANCEMENT_MODEL_NAME", "m")] }

/-- Fixture environment for the C8 witness: the positive-prompt LLM call
itself fails. -/
def w8env : TaskEnv :=
  { probe := fun _ => none, random_seed := 1, llm_positive := .error (),
    llm_negative := .error (), workflow_file := .error ("nofile"),
    denoise_setting := .ok 0, upload := .error ("x"),
    run_workflow := .error ("x"), log_write_fails := false,
    duration_ms := 1 }

/-- Fixture environment for the C9 witness: the workflow template is the
empty graph, which has no MCP_INPUT_IMAGE node. -/
def w9env : TaskEnv :=
  { probe := fun _ => some 0, random_seed := 1, llm_positive := .error (),
    llm_negative := .error (), workflow_file := .ok [],
    denoise_setting := .ok 0, upload := .ok ("up.png"),
    run_workflow := .ok ("http://out/img.png"), log_write_fails := false,
    duration_ms := 1 }

/-- Fixture `upscale_image` arguments for the C9 witness. -/
def w9args : TaskArgs :=
  { prompt := none, negative_prompt := none, style_names := [],
    aspect_ratio := none, render_type := some ("U"), seed := some 1,
    enhance_prompt := false, input_image_url := "http://src", denoise := none }

/-- Fixture database for the C9 witness: an upscale render type with an
active compatible backend and a configured output base. -/
def w9db : DB :=
  { render_types :=
      [{ id := 1, name := "U", workflow_filename := "u.json",
         is_visible := true, generation_mode := "upscale",
         is_default_for_generation := false, is_default_for_upscale := true }],
    styles := [],
    comfyui_instances :=
      [{ id := 1, name := "i", base_url := "u", is_active := true,
         compatible_render_types := ["U"] }],
    ollama_instances := [],
    settings := [("OUTPUT_URL_BASE", "http://out")] }

/-- Fixture render-type table for the C10 witness: row 1 is the current
generation default, row 2 is the new target. -/
def w10table : List RenderType :=
  [{ id := 1, name := "G1", workflow_filename := "g1.json",
     is_visible := true, generation_mode := "image_generation",
     is_default_for_generation := true, is_default_for_upscale := false },
   { id := 2, name := "G2", workflow_filename := "g2.json",
     is_visible := true, generation_mode := "image_generation",
     is_default_for_generation := false, is_default_for_upscale := false }]

/- ### Helper views used by the theorems -/

/-- The `log_data` carried by a task-body outcome, success or error. -/
def bodyLog : Except (String × LogData × Bool) (LogData × Bool) → LogData
  | .ok (ld, _) => ld
  | .error (_, ld, _) => ld

/-- The submitted flag carried by a task-body outcome. -/
def bodySubmitted : Except (String × LogData × Bool) (LogData × Bool) → Bool
  | .ok (_, sub) => sub
  | .error (_, _, sub) => sub

/-- The prompt-enhancement configuration is present and usable: both settings
truthy, the id parses, the referenced Ollama instance exists, is active, and
has a non-empty base URL, so the `OllamaClient` constructor does not raise
and the LLM calls are actually reached (lines 142-151). -/
def enhancementActive (db : DB) : Bool :=
  let iid_str := get_setting db ("PROMPT_ENHANCEMENT_OLLAMA_INSTANCE_ID")
  let model := get_setting db ("PROMPT_ENHANCEMENT_MODEL_NAME")
  strTruthy iid_str && strTruthy model &&
    (match pyInt? (pyStr iid_str) with
     | none => false
     | some iid =>
       match get_ollama_instance_by_id db iid with
       | some inst => inst.is_active && !inst.base_url.isEmpty
       | none => false)

/-- The enhancement path on which the `OllamaClient` constructor raises its
uncaught `ValueError`: settings configured and parsed, instance found and
active, but its `base_url` is the empty string, so
`OllamaClient(api_url=instance.base_url, ...)` raises `ValueError` at
`ollama_client.py` lines 62-63, which `except OllamaError` does not catch —
the whole request fails. -/
def enhancementConstructorFails (db : DB) : Bool :=
  let iid_str := get_setting db ("PROMPT_ENHANCEMENT_OLLAMA_INSTANCE_ID")
  let model := get_setting db ("PROMPT_ENHANCEMENT_MODEL_NAME")
  strTruthy iid_str && strTruthy model &&
    (match pyInt? (pyStr iid_str) with
     | none => false
     | some iid =>
       match get_ollama_instance_by_id db iid with
       | some inst => inst.is_active && inst.base_url.isEmpty
       | none => false)

/-- The enhancement step is skipped without any LLM call and without raising:
settings absent, or the referenced instance missing or inactive (the two
`logger.warning` branches of lines 154-157). -/
def enhancementSkipped (db : DB) : Bool :=
  let iid_str := get_setting db ("PROMPT_ENHANCEMENT_OLLAMA_INSTANCE_ID")
  let model := get_setting db ("PROMPT_ENHANCEMENT_MODEL_NAME")
  if strTruthy iid_str && strTruthy model then
    match pyInt? (pyStr iid_str) with
    | none => false
    | some iid =>
      match get_ollama_instance_by_id db iid with
      | some inst => !inst.is_active
      | none => true
  else true

/- ### Theorems -/

/-- Python `min` with a key: the fold keeps the first element whose key is
minimal.  The result splits the scanned list into a strictly-greater prefix,
itself, and a greater-or-equal remainder. -/
theorem minByQueue_first_min (xs : List (ComfyUIInstance × Nat))
    (x : ComfyUIInstance × Nat) :
    ∃ l1 l2, x :: xs = l1 ++ minByQueue x xs :: l2 ∧
      (∀ z ∈ l1, (minByQueue x xs).2 < z.2) ∧
      ∀ z ∈ x :: xs, (minByQueue x xs).2 ≤ z.2 := by
  induction xs generalizing x with
  | nil =>
    refine ⟨[], [], rfl, by simp, ?_⟩
    intro z hz
    simp only [List.mem_singleton] at hz
    simp [hz, minByQueue]
  | cons y ys ih =>
    have hrec : minByQueue x (y :: ys) =
        minByQueue (if y.2 < x.2 then y else x) ys := rfl
    by_cases hy : y.2 < x.2
    · obtain ⟨l1, l2, hdec, hlt, hle⟩ := ih y
      rw [hrec, if_pos hy]
      refine ⟨x :: l1, l2, ?_, ?_, ?_⟩
      · rw [List.cons_append, ← hdec]
      · intro z hz
        rcases List.mem_cons.mp hz with hz | hz
        · subst hz
          exact lt_of_le_of_lt (hle y (List.mem_cons_self y ys)) hy
        · exact hlt z hz
      · intro z hz
        rcases List.mem_cons.mp hz with hz | hz
        · subst hz
          exact le_of_lt (lt_of_le_of_lt (hle y (List.mem_cons_self y ys)) hy)
        · exact hle z hz
    · obtain ⟨l1, l2, hdec, hlt, hle⟩ := ih x
      rw [hrec, if_neg hy]
      have hxy : x.2 ≤ y.2 := le_of_not_lt hy
      cases l1 with
      | nil =>
        simp only [List.nil_append] at hdec
        have hx : x = minByQueue x ys := (List.cons.injEq _ _ _ _ ▸ hdec :
          x = minByQueue x ys ∧ ys = l2).1
        refine ⟨[], y :: ys, by simp [← hx], by simp, ?_⟩
        intro z hz
        rcases List.mem_cons.mp hz with hz | hz
        · subst hz
          exact hle _ (List.mem_cons_self _ ys)
        · rcases List.mem_cons.mp hz with hz2 | hz2
          · subst hz2
            exact le_trans (hle _ (List.mem_cons_self _ ys)) hxy
          · exact hle z (List.mem_cons_of_mem _ hz2)
      | cons a l1t =>
        have hinj : a = x ∧ ys = l1t ++ minByQueue x ys :: l2 := by
          rw [List.cons_append] at hdec
          have h2 := (List.cons.injEq _ _ _ _ ▸ hdec :
            x = a ∧ ys = l1t ++ minByQueue x ys :: l2)
          exact ⟨h2.1.symm, h2.2⟩
        obtain ⟨ha, hys⟩ := hinj
        have hmx : (minByQueue x ys).2 < x.2 := by
          have := hlt a (List.mem_cons_self a l1t)
          rw [ha] at this
          exact this
        refine ⟨x :: y :: l1t, l2, ?_, ?_, ?_⟩
        · conv_lhs => rw [hys]
          simp [List.cons_append]
        · intro z hz
          rcases List.mem_cons.mp hz with hz | hz
          · subst hz
            exact hmx
          · rcases List.mem_cons.mp hz with hz2 | hz2
            · subst hz2
              exact lt_of_lt_of_le hmx hxy
            · have : z ∈ a :: l1t := List.mem_cons_of_mem a hz2
              exact hlt z this
        · intro z hz
          rcases List.mem_cons.mp hz with hz | hz
          · subst hz
            exact le_of_lt hmx
          · rcases List.mem_cons.mp hz with hz2 | hz2
            · subst hz2
              exact le_of_lt (lt_of_lt_of_le hmx hxy)
            · exact hle z (List.mem_cons_of_mem x hz2)

/-- Membership in `valid_queues` is exactly: a compatible instance whose probe
succeeded with that queue size. -/
theorem mem_validQueues (db : DB) (rtn : Option String)
    (probe : ComfyUIInstance → Option Nat) (p : ComfyUIInstance × Nat) :
    p ∈ validQueues db rtn probe ↔
      p.1 ∈ compatibleInstances db rtn ∧ probe p.1 = some p.2 := by
  unfold validQueues queueSizes
  rw [List.mem_filterMap]
  constructor
  · rintro ⟨a, ha, hfa⟩
    rw [List.mem_map] at ha
    obtain ⟨inst, hinst, rfl⟩ := ha
    cases hp : probe inst with
    | none =>
      rw [hp] at hfa
      simp at hfa
    | some q =>
      rw [hp] at hfa
      simp only [Option.some.injEq] at hfa
      rw [← hfa]
      exact ⟨hinst, hp⟩
  · rintro ⟨hmem, hp⟩
    refine ⟨(p.1, probe p.1), List.mem_map_of_mem _ hmem, ?_⟩
    rw [hp]

/-- If every compatible instance's probe fails, `valid_queues` is empty. -/
theorem validQueues_nil_of_all_fail (db : DB) (rtn : Option String)
    (probe : ComfyUIInstance → Option Nat)
    (hall : ∀ inst ∈ compatibleInstances db rtn, probe inst = none) :
    validQueues db rtn probe = [] := by
  unfold validQueues queueSizes
  rw [List.filterMap_eq_nil_iff]
  intro a ha
  rw [List.mem_map] at ha
  obtain ⟨inst, hinst, rfl⟩ := ha
  rw [hall inst hinst]

/-- C1 (confirmed).  For every instance-selection call with a resolved
render type: when the selection returns an instance, that instance is an
active compatible one whose probe succeeded, its reported queue size is
minimal among all reachable compatible instances, and every reachable
compatible instance encountered before it reported a strictly larger queue
(ties go to the first encountered); when no active compatible instance exists
or every probe fails, the call returns a `ValueError` (a domain error), not a
crash. -/
theorem C1_instance_selection (db : DB) (rt : String)
    (probe : ComfyUIInstance → Option Nat) :
    (∀ inst, select_best_comfyui_instance db (some rt) probe = .ok inst →
      inst ∈ compatibleInstances db (some rt) ∧
      ∃ q, probe inst = some q ∧
        (∀ p ∈ validQueues db (some rt) probe, q ≤ p.2) ∧
        ∃ l1 l2, validQueues db (some rt) probe = l1 ++ (inst, q) :: l2 ∧
          ∀ p ∈ l1, q < p.2) ∧
    ((compatibleInstances db (some rt) = [] ∨
        ∀ inst ∈ compatibleInstances db (some rt), probe inst = none) →
      ∃ msg, select_best_comfyui_instance db (some rt) probe = .error msg) := by
  constructor
  · intro inst hok
    unfold select_best_comfyui_instance at hok
    split at hok
    · simp at hok
    · split at hok
      · simp at hok
      · split at hok
        · simp at hok
        · rename_i x xs heq
          simp only [Except.ok.injEq] at hok
          obtain ⟨l1, l2, hdec, hlt, hle⟩ := minByQueue_first_min xs x
          have hmem : minByQueue x xs ∈ validQueues db (some rt) probe := by
            rw [heq, hdec]
            exact List.mem_append_right l1 (List.mem_cons_self _ l2)
          have hchar := (mem_validQueues db (some rt) probe _).mp hmem
          subst hok
          refine ⟨hchar.1, (minByQueue x xs).2, hchar.2, ?_, l1, l2, ?_, hlt⟩
          · intro p hp
            rw [heq] at hp
            exact hle p hp
          · rw [heq, hdec]
  · intro h
    unfold select_best_comfyui_instance
    split
    · exact ⟨_, rfl⟩
    · split
      · exact ⟨_, rfl⟩
      · rename_i h1 h2
        rcases h with hc | hall
        · exact absurd (by simp [hc] : (compatibleInstances db (some rt)).isEmpty = true) h2
        · rw [validQueues_nil_of_all_fail db (some rt) probe hall]
          exact ⟨_, rfl⟩

/-- Witness for C1 at the spec's scenario: two active compatible backends
reporting queue sizes 3 and 0, the backend with queue 0 is selected, is
reachable, and its queue is minimal. -/
theorem C1_instance_selection_witness :
    w1instB ∈ compatibleInstances w1db (some ("T")) ∧
    ∃ q, w1probe w1instB = some q ∧
      (∀ p ∈ validQueues w1db (some ("T")) w1probe, q ≤ p.2) ∧
      ∃ l1 l2, validQueues w1db (some ("T")) w1probe = l1 ++ (w1instB, q) :: l2 ∧
        ∀ p ∈ l1, q < p.2 :=
  (C1_instance_selection w1db ("T") w1probe).1 w1instB (by rfl)

/-- C2 (corrected: see `C2_resolution_cex`).  Amended statement: the
resolution loop never raises; for the last applied style, if a render type is
currently selected and the style is incompatible with it, the style's
configured fallback (when present) replaces the selection — last switch wins —
and when the style has no fallback the selection is kept unchanged (still no
error); a domain error arises only downstream, when resolution ends with no
render type selected and no default render type is configured for the tool's
mode.  The result is NOT guaranteed to be compatible with every style that
declares a non-empty compatibility set. -/
theorem C2_resolution_amended (db : DB) (names : List String)
    (rtn : Option String) (n : String) :
    (∀ style fb, get_style_by_name db n = some style →
      strTruthy (resolveRenderType db names rtn) = true →
      style.compatible_render_types.any
        (fun rt => rt == pyStr (resolveRenderType db names rtn)) = false →
      style.default_render_type = some fb →
      resolveRenderType db (names ++ [n]) rtn = some fb) ∧
    (∀ style, get_style_by_name db n = some style →
      style.default_render_type = none →
      resolveRenderType db (names ++ [n]) rtn =
        resolveRenderType db names rtn) ∧
    (∀ tool args env pre, strTruthy pre.render_type_name = false →
      get_default_render_type_for_generation db = none →
      get_default_render_type_for_upscale db = none →
      restStages tool args db env pre =
        .error ("No default render type configured.", pre.log, false)) := by
  have happ : resolveRenderType db (names ++ [n]) rtn =
      resolveStep db (resolveRenderType db names rtn) n := by
    unfold resolveRenderType
    rw [List.foldl_append]
    rfl
  refine ⟨?_, ?_, ?_⟩
  · intro style fb hstyle htruthy hincomp hfb
    rw [happ]
    simp [resolveStep, hstyle, htruthy, hincomp, hfb]
  · intro style hstyle hfb
    rw [happ]
    simp only [resolveStep, hstyle, hfb]
    rcases h1 : strTruthy (resolveRenderType db names rtn) <;>
      rcases h2 : (style.compatible_render_types.any
        (fun rt => rt == pyStr (resolveRenderType db names rtn))) <;>
      simp [h1, h2]
  · intro tool args env pre hfalse hgen hup
    unfold restStages
    rw [hfalse]
    cases tool <;> simp [hgen, hup]

/-- Counterexample for C2 as stated: with style S1 declaring the non-empty
compatibility set [A] and no fallback, a `generate_image` request for render
type B resolves to B — incompatible with S1 — raises no domain error, and in
fact completes successfully end to end. -/
theorem C2_resolution_cex :
    get_style_by_name cex2db ("S1") = some cex2style ∧
    cex2style.compatible_render_types ≠ [] ∧
    cex2style.compatible_render_types.contains ("B") = false ∧
    resolveRenderType cex2db ["S1"] (some ("B")) = some ("B") ∧
    (run_generation_task .generate_image cex2args cex2db cex2env ("s")
      ).log_data.status = "SUCCESS" ∧
    (run_generation_task .generate_image cex2args cex2db cex2env ("s")
      ).log_data.render_type_name = some ("B") ∧
    (run_generation_task .generate_image cex2args cex2db cex2env ("s")
      ).messages = [Msg.chunkResult ("s"), Msg.streamEnd ("s")] := by
  refine ⟨rfl, by decide, by decide, rfl, rfl, rfl, rfl⟩

/-- Witness for the amended C2: a style compatible only with A and with
fallback C, applied while B is selected, switches the selection to C. -/
theorem C2_resolution_amended_witness :
    resolveRenderType w2db ["S2"] (some ("B")) = some ("C") :=
  (C2_resolution_amended w2db [] (some ("B")) ("S2")).1 w2style ("C") rfl rfl
    (by decide) rfl

/-- The call-site keyword `server_public_url_base` is not a declared parameter
of `upload_image_from_url`, so the call raises `TypeError`. -/
theorem upload_kwarg_clash : uploadCallHasUnexpectedKwarg = true := by decide

/-- Helper: for `upscale_image` the `restStages` phase always raises before the
workflow is submitted (at latest at the upload call, whose unexpected keyword
argument raises `TypeError`), leaving the log status untouched. -/
theorem restStages_upscale_error (args : TaskArgs) (db : DB) (env : TaskEnv)
    (pre : Pre) :
    ∃ m ld, restStages .upscale_image args db env pre = .error (m, ld, false) ∧
      ld.status = pre.log.status := by
  have tail : ∀ rtn, ∃ m ld,
      restStagesWithRtn .upscale_image args db env pre rtn =
        .error (m, ld, false) ∧ ld.status = pre.log.status := by
    intro rtn
    unfold restStagesWithRtn
    cases h2 : get_render_type_by_name db rtn with
    | none => exact ⟨_, _, rfl, rfl⟩
    | some rt =>
      cases h3 : select_best_comfyui_instance db (some rtn) env.probe with
      | error m => exact ⟨_, _, rfl, rfl⟩
      | ok sel =>
        cases h4 : env.workflow_file with
        | error m => exact ⟨_, _, rfl, rfl⟩
        | ok wf0 =>
          cases h5 : args.denoise with
          | none =>
            cases h6 : env.denoise_setting with
            | error m => exact ⟨_, _, rfl, rfl⟩
            | ok d => exact ⟨_, _, rfl, rfl⟩
          | some d => exact ⟨_, _, rfl, rfl⟩
  unfold restStages
  cases h1 : strTruthy pre.render_type_name with
  | true => exact tail _
  | false =>
    cases h2 : get_default_render_type_for_upscale db with
    | none => exact ⟨_, _, rfl, rfl⟩
    | some rt => exact tail _

/-- Helper: the preamble of an `upscale_image` task never raises, and leaves
the initial FAILED status in place. -/
theorem preamble_upscale_ok (args : TaskArgs) (db : DB) (env : TaskEnv) :
    ∃ pre, preamble .upscale_image args db env = .ok pre ∧
      pre.log.status = "FAILED" := ⟨_, rfl, rfl⟩

/-- Helper: the whole `try` body of an `upscale_image` task always raises, and
never reaches the submission call. -/
theorem runBody_upscale_error (args : TaskArgs) (db : DB) (env : TaskEnv) :
    ∃ m ld, runBody .upscale_image args db env = .error (m, ld, false) ∧
      ld.status = "FAILED" := by
  obtain ⟨pre, hpre, hst⟩ := preamble_upscale_ok args db env
  obtain ⟨m, ld, hrest, hld⟩ := restStages_upscale_error args db env pre
  refine ⟨m, ld, ?_, by rw [hld, hst]⟩
  unfold runBody
  rw [hpre]
  exact hrest

/-- C5 (confirmed).  The upload call in the upscale branch passes the
keyword argument `server_public_url_base`, which `upload_image_from_url` does
not declare, so the call raises `TypeError`; consequently every
`upscale_image` run fails: the success branch is unreachable, the workflow is
never submitted, the stream receives an error `stream/chunk` (then the end),
and every log row written has status FAILED. -/
theorem C5_upscale_upload_bug :
    uploadCallHasUnexpectedKwarg = true ∧
    ∀ args db env sid,
      (run_generation_task .upscale_image args db env sid).log_data.status =
        "FAILED" ∧
      (run_generation_task .upscale_image args db env sid).submitted = false ∧
      (∃ m, (run_generation_task .upscale_image args db env sid).messages =
        [Msg.chunkError sid m, Msg.streamEnd sid]) ∧
      ((run_generation_task .upscale_image args db env sid).log_rows.all
        (fun r => r.status == "FAILED")) = true := by
  refine ⟨upload_kwarg_clash, ?_⟩
  intro args db env sid
  obtain ⟨m, ld, hbody, hst⟩ := runBody_upscale_error args db env
  unfold run_generation_task
  rw [hbody]
  refine ⟨hst, rfl, ⟨m, rfl⟩, ?_⟩
  cases hw : env.log_write_fails with
  | true => rfl
  | false => simp [hst]

/-- C9 (confirmed).  An `upscale_image` request whose workflow template
has no MCP_INPUT_IMAGE node ends in an error chunk with the workflow never
submitted to the backend; by contrast a workflow with no MCP_SEED node leaves
the seed-injection step as the identity — silently skipped, no error. -/
theorem C9_missing_nodes :
    (∀ args db env sid,
      (∀ wf, env.workflow_file = .ok wf →
        find_node_id_by_title wf ("MCP_INPUT_IMAGE") = none) →
      (run_generation_task .upscale_image args db env sid).submitted = false ∧
      (run_generation_task .upscale_image args db env sid).log_data.status =
        "FAILED" ∧
      ∃ m, (run_generation_task .upscale_image args db env sid).messages =
        [Msg.chunkError sid m, Msg.streamEnd sid]) ∧
    (∀ (wf : Workflow) (s : Rat),
      find_node_id_by_title wf ("MCP_SEED") = none → injectSeed wf s = wf) := by
  constructor
  · intro args db env sid _hmissing
    obtain ⟨m, ld, hbody, hst⟩ := runBody_upscale_error args db env
    unfold run_generation_task
    rw [hbody]
    exact ⟨rfl, hst, m, rfl⟩
  · intro wf s hnone
    unfold injectSeed
    rw [hnone]

/-- Witness for C9: a concrete upscale request whose workflow template is the
empty graph (no MCP_INPUT_IMAGE node) fails without submitting, and seed
injection on that graph (no MCP_SEED node) is the identity. -/
theorem C9_missing_nodes_witness :
    ((run_generation_task .upscale_image w9args w9db w9env ("s")).submitted =
        false ∧
      (run_generation_task .upscale_image w9args w9db w9env ("s")
        ).log_data.status = "FAILED" ∧
      ∃ m, (run_generation_task .upscale_image w9args w9db w9env ("s")
        ).messages = [Msg.chunkError ("s") m, Msg.streamEnd ("s")]) ∧
    injectSeed [] 0 = ([] : Workflow) :=
  ⟨C9_missing_nodes.1 w9args w9db w9env ("s")
      (by
        intro wf h
        injection h with h2
        subst h2
        rfl),
    C9_missing_nodes.2 [] 0 rfl⟩

/-- C6 (confirmed).  Every `/mcp` response is a JSON-RPC envelope served
with HTTP status 200 — never a raw 500: an unparseable body maps to -32700, an
unsupported method to -32601, a schema-validation failure to -32602, a domain
error (`ValueError`) during tool setup to -32000 with its message, and any
other uncaught exception to -32603. -/
theorem C6_jsonrpc_errors :
    (∀ setup, mcp_endpoint none setup =
      create_error_response .null (-32700) ("Invalid JSON received.")) ∧
    (∀ rid setup method, method ≠ "tools/list" → method ≠ "tools/call" →
      mcp_endpoint (some (method, rid)) setup =
        create_error_response rid (-32601) ("Method not found.")) ∧
    (∀ rid, mcp_endpoint (some ("tools/call", rid)) (.error .validationError) =
      create_error_response rid (-32602) ("Invalid parameters.")) ∧
    (∀ rid msg,
      mcp_endpoint (some ("tools/call", rid)) (.error (.valueError msg)) =
        create_error_response rid (-32000) msg) ∧
    (∀ rid, mcp_endpoint (some ("tools/call", rid)) (.error .otherError) =
      create_error_response rid (-32603) ("Internal server error.")) ∧
    (∀ req setup, (mcp_endpoint req setup).status_code = 200) := by
  refine ⟨fun _ => rfl, ?_, fun _ => rfl, fun _ _ => rfl, fun _ => rfl, ?_⟩
  · intro rid setup method h1 h2
    have b1 : (method == "tools/list") = false := by simpa using h1
    have b2 : (method == "tools/call") = false := by simpa using h2
    unfold mcp_endpoint
    simp only [b1, b2, Bool.false_eq_true, if_false]
  · intro req setup
    unfold mcp_endpoint
    repeat' split
    all_goals rfl

/-- Witness for C6 at a concrete unsupported method. -/
theorem C6_jsonrpc_errors_witness :
    mcp_endpoint (some ("foo", RpcId.null)) (.ok ()) =
      create_error_response RpcId.null (-32601) ("Method not found.") :=
  C6_jsonrpc_errors.2.1 RpcId.null (.ok ()) ("foo") (by decide) (by decide)

/-- Helper: the stages after the prompt assembly never change the recorded
prompts or the llm flag (with a settled render-type name). -/
theorem restStagesWithRtn_log_fields (tool : ToolName) (args : TaskArgs)
    (db : DB) (env : TaskEnv) (pre : Pre) (rtn : String) :
    (bodyLog (restStagesWithRtn tool args db env pre rtn)).positive_prompt =
      pre.log.positive_prompt ∧
    (bodyLog (restStagesWithRtn tool args db env pre rtn)).negative_prompt =
      pre.log.negative_prompt ∧
    (bodyLog (restStagesWithRtn tool args db env pre rtn)).llm_enhanced =
      pre.log.llm_enhanced := by
  unfold restStagesWithRtn
  cases h2 : get_render_type_by_name db rtn with
  | none => exact ⟨rfl, rfl, rfl⟩
  | some rt =>
    cases h3 : select_best_comfyui_instance db (some rtn) env.probe with
    | error m => exact ⟨rfl, rfl, rfl⟩
    | ok sel =>
      cases h4 : env.workflow_file with
      | error m => exact ⟨rfl, rfl, rfl⟩
      | ok wf0 =>
        cases tool with
        | upscale_image =>
          cases h5 : args.denoise with
          | none =>
            cases h6 : env.denoise_setting with
            | error m => exact ⟨rfl, rfl, rfl⟩
            | ok d => exact ⟨rfl, rfl, rfl⟩
          | some d => exact ⟨rfl, rfl, rfl⟩
        | generate_image =>
          cases h6 : strTruthy (get_setting db ("OUTPUT_URL_BASE")) with
          | false => exact ⟨rfl, rfl, rfl⟩
          | true =>
            cases h7 : env.run_workflow with
            | error m => exact ⟨rfl, rfl, rfl⟩
            | ok url => exact ⟨rfl, rfl, rfl⟩

/-- Helper: `restStages` never changes the recorded prompts or the llm flag. -/
theorem restStages_log_fields (tool : ToolName) (args : TaskArgs) (db : DB)
    (env : TaskEnv) (pre : Pre) :
    (bodyLog (restStages tool args db env pre)).positive_prompt =
      pre.log.positive_prompt ∧
    (bodyLog (restStages tool args db env pre)).negative_prompt =
      pre.log.negative_prompt ∧
    (bodyLog (restStages tool args db env pre)).llm_enhanced =
      pre.log.llm_enhanced := by
  unfold restStages
  cases h1 : strTruthy pre.render_type_name with
  | true => exact restStagesWithRtn_log_fields tool args db env pre _
  | false =>
    cases tool with
    | generate_image =>
      cases h2 : get_default_render_type_for_generation db with
      | none => exact ⟨rfl, rfl, rfl⟩
      | some rt => exact restStagesWithRtn_log_fields _ args db env pre _
    | upscale_image =>
      cases h2 : get_default_render_type_for_upscale db with
      | none => exact ⟨rfl, rfl, rfl⟩
      | some rt => exact restStagesWithRtn_log_fields _ args db env pre _

/-- Helper: the final log row records the body's prompts and llm flag. -/
theorem run_log_fields (tool : ToolName) (args : TaskArgs) (db : DB)
    (env : TaskEnv) (sid : String) :
    (run_generation_task tool args db env sid).log_data.positive_prompt =
      (bodyLog (runBody tool args db env)).positive_prompt ∧
    (run_generation_task tool args db env sid).log_data.negative_prompt =
      (bodyLog (runBody tool args db env)).negative_prompt ∧
    (run_generation_task tool args db env sid).log_data.llm_enhanced =
      (bodyLog (runBody tool args db env)).llm_enhanced := by
  unfold run_generation_task
  cases h : runBody tool args db env with
  | ok v =>
    obtain ⟨ld, sub⟩ := v
    exact ⟨rfl, rfl, rfl⟩
  | error e =>
    obtain ⟨m, ld, sub⟩ := e
    exact ⟨rfl, rfl, rfl⟩

/-- Helper: whatever triple `(pos, neg, flag)` the enhancement step returns,
the task's log row records the style-assembled prompts built from `pos` and
`neg` and records `llm_enhanced = flag`. -/
theorem genTask_log_of_enhance (args : TaskArgs) (db : DB) (env : TaskEnv)
    (sid : String) (pos neg : String) (flag : Bool)
    (henh : enhanceStage db env args = .ok (pos, neg, flag)) :
    (run_generation_task .generate_image args db env sid
      ).log_data.positive_prompt =
      joinNonEmpty (positiveParts db pos
        (styleNamesToApply db args.style_names)) ∧
    (run_generation_task .generate_image args db env sid
      ).log_data.negative_prompt =
      joinNonEmpty (negativeParts db neg
        (styleNamesToApply db args.style_names)) ∧
    (run_generation_task .generate_image args db env sid
      ).log_data.llm_enhanced = flag := by
  have hpre : ∃ pre, preamble .generate_image args db env = .ok pre ∧
      pre.log.positive_prompt =
        joinNonEmpty (positiveParts db pos
          (styleNamesToApply db args.style_names)) ∧
      pre.log.negative_prompt =
        joinNonEmpty (negativeParts db neg
          (styleNamesToApply db args.style_names)) ∧
      pre.log.llm_enhanced = flag := by
    unfold preamble
    rw [henh]
    exact ⟨_, rfl, rfl, rfl, rfl⟩
  obtain ⟨pre, hpre, hp, hn, hf⟩ := hpre
  have hrb : runBody .generate_image args db env =
      restStages .generate_image args db env pre := by
    unfold runBody
    rw [hpre]
  obtain ⟨r1, r2, r3⟩ := run_log_fields .generate_image args db env sid
  obtain ⟨s1, s2, s3⟩ := restStages_log_fields .generate_image args db env pre
  rw [hrb] at r1 r2 r3
  exact ⟨r1.trans (s1.trans hp), r2.trans (s2.trans hn), r3.trans (s3.trans hf)⟩

/-- C7 (confirmed).  For a `generate_image` request (enhancement off, so
the base prompts are the caller's): when no style names are supplied the
default-flagged styles are substituted, and the recorded final positive prompt
is the base prompt followed by each applied (existing) style's template
fragment in order, joined with the fixed separator and with empty fragments
skipped; the negative prompt mirrors the rule. -/
theorem C7_prompt_assembly (args : TaskArgs) (db : DB) (env : TaskEnv)
    (sid : String) (henh : args.enhance_prompt = false) :
    (args.style_names = [] →
      styleNamesToApply db args.style_names =
        (get_default_styles db).map (fun s => s.name)) ∧
    (run_generation_task .generate_image args db env sid
      ).log_data.positive_prompt =
      joinNonEmpty (positiveParts db (pyStr args.prompt)
        (styleNamesToApply db args.style_names)) ∧
    (run_generation_task .generate_image args db env sid
      ).log_data.negative_prompt =
      joinNonEmpty (negativeParts db (pyStr args.negative_prompt)
        (styleNamesToApply db args.style_names)) := by
  have hstage : enhanceStage db env args =
      .ok (pyStr args.prompt, pyStr args.negative_prompt, false) := by
    unfold enhanceStage
    rw [henh]
    rfl
  obtain ⟨hpos, hneg, _⟩ := genTask_log_of_enhance args db env sid _ _ _ hstage
  refine ⟨?_, hpos, hneg⟩
  intro hnil
  unfold styleNamesToApply
  rw [hnil]
  cases hd : (get_default_styles db).isEmpty with
  | false => simp [hd]
  | true =>
    have hdn : get_default_styles db = [] := by
      simpa using hd
    simp [hd, hdn]

/-- Witness for C7: one default style (fragment `frag` / `nfrag`), no styles
supplied, base prompts `base` / `nbase`; the defaults are substituted and the
log row records the joined prompts. -/
theorem C7_prompt_assembly_witness :
    styleNamesToApply w7db w7args.style_names =
      (get_default_styles w7db).map (fun s => s.name) ∧
    (run_generation_task .generate_image w7args w7db w7env ("s")
      ).log_data.positive_prompt =
      joinNonEmpty (positiveParts w7db (pyStr w7args.prompt)
        (styleNamesToApply w7db w7args.style_names)) ∧
    (run_generation_task .generate_image w7args w7db w7env ("s")
      ).log_data.negative_prompt =
      joinNonEmpty (negativeParts w7db (pyStr w7args.negative_prompt)
        (styleNamesToApply w7db w7args.style_names)) :=
  ⟨(C7_prompt_assembly w7args w7db w7env ("s") rfl).1 rfl,
   (C7_prompt_assembly w7args w7db w7env ("s") rfl).2.1,
   (C7_prompt_assembly w7args w7db w7env ("s") rfl).2.2⟩

/-- Helper: with enhancement requested and the configuration usable, the
enhancement step's result depends only on the two LLM call outcomes; a
first-call failure keeps both base prompts, a second-call failure keeps the
enhanced positive prompt, and in both failure cases the flag stays false. -/
theorem enhanceStage_active (db : DB) (env : TaskEnv) (args : TaskArgs)
    (henh : args.enhance_prompt = true) (hact : enhancementActive db = true) :
    enhanceStage db env args =
      match env.llm_positive with
      | .error _ => .ok (pyStr args.prompt, pyStr args.negative_prompt, false)
      | .ok p =>
        match env.llm_negative with
        | .error _ => .ok (p, pyStr args.negative_prompt, false)
        | .ok n => .ok (p, n, true) := by
  unfold enhancementActive at hact
  dsimp only at hact
  rw [Bool.and_eq_true, Bool.and_eq_true] at hact
  obtain ⟨⟨hiid, hmodel⟩, hrest⟩ := hact
  unfold enhanceStage
  dsimp only
  rw [henh, hiid, hmodel]
  cases hp : pyInt? (pyStr (get_setting db ("PROMPT_ENHANCEMENT_OLLAMA_INSTANCE_ID"))) with
  | none =>
    rw [hp] at hrest
    exact absurd hrest (by simp)
  | some iid =>
    rw [hp] at hrest
    dsimp only at hrest ⊢
    cases hl : get_ollama_instance_by_id db iid with
    | none =>
      rw [hl] at hrest
      exact absurd hrest (by simp)
    | some inst =>
      rw [hl] at hrest
      dsimp only at hrest ⊢
      rw [Bool.and_eq_true] at hrest
      obtain ⟨hactive, hurl⟩ := hrest
      rw [hactive]
      have hempty : inst.base_url.isEmpty = false := by
        simpa using hurl
      rw [hempty]
      rfl

/-- Helper: with enhancement requested but skipped (unconfigured settings, or
a missing or inactive instance), the step returns the base prompts with the
flag false, raising nothing and calling no LLM. -/
theorem enhanceStage_skipped (db : DB) (env : TaskEnv) (args : TaskArgs)
    (henh : args.enhance_prompt = true) (hskip : enhancementSkipped db = true) :
    enhanceStage db env args =
      .ok (pyStr args.prompt, pyStr args.negative_prompt, false) := by
  unfold enhancementSkipped at hskip
  dsimp only at hskip
  unfold enhanceStage
  dsimp only
  rw [henh]
  cases hab : (strTruthy (get_setting db ("PROMPT_ENHANCEMENT_OLLAMA_INSTANCE_ID")) &&
      strTruthy (get_setting db ("PROMPT_ENHANCEMENT_MODEL_NAME"))) with
  | false => rfl
  | true =>
    rw [hab, if_pos rfl] at hskip
    cases hp : pyInt? (pyStr (get_setting db ("PROMPT_ENHANCEMENT_OLLAMA_INSTANCE_ID"))) with
    | none =>
      rw [hp] at hskip
      exact absurd hskip (by simp)
    | some iid =>
      rw [hp] at hskip
      dsimp only at hskip ⊢
      cases hl : get_ollama_instance_by_id db iid with
      | none => rfl
      | some inst =>
        rw [hl] at hskip
        dsimp only at hskip ⊢
        have hin : inst.is_active = false := by
          simpa using hskip
        rw [hin]
        rfl

/-- Helper: with enhancement requested on the constructor-failure
configuration, the enhancement step raises the constructor's `ValueError`
message. -/
theorem enhanceStage_ctor_error (db : DB) (env : TaskEnv) (args : TaskArgs)
    (henh : args.enhance_prompt = true)
    (hctor : enhancementConstructorFails db = true) :
    enhanceStage db env args =
      .error ("Ollama API URL and model name are required.") := by
  unfold enhancementConstructorFails at hctor
  dsimp only at hctor
  rw [Bool.and_eq_true, Bool.and_eq_true] at hctor
  obtain ⟨⟨hiid, hmodel⟩, hrest⟩ := hctor
  unfold enhanceStage
  dsimp only
  rw [henh, hiid, hmodel]
  cases hp : pyInt? (pyStr (get_setting db ("PROMPT_ENHANCEMENT_OLLAMA_INSTANCE_ID"))) with
  | none =>
    rw [hp] at hrest
    exact absurd hrest (by simp)
  | some iid =>
    rw [hp] at hrest
    dsimp only at hrest ⊢
    cases hl : get_ollama_instance_by_id db iid with
    | none =>
      rw [hl] at hrest
      exact absurd hrest (by simp)
    | some inst =>
      rw [hl] at hrest
      dsimp only at hrest ⊢
      rw [Bool.and_eq_true] at hrest
      obtain ⟨hactive, hurl⟩ := hrest
      rw [hactive, hurl]
      rfl

/-- C8 (corrected: see `C8_enhancement_cex`).  Amended statement: with
enhancement requested — if the configuration is unusable (settings missing,
instance missing or inactive) or the first (positive) LLM call fails, the
request proceeds with the un-enhanced prompts and the log row records
`llm_enhanced = false`; if the positive call succeeds and the negative call
then fails, the already-enhanced positive prompt is kept (only the negative
stays un-enhanced) while `llm_enhanced` is still logged as false.
Enhancement failure is non-fatal only in those cases: when the configured
instance is active but its base URL is empty, the `OllamaClient`
constructor's `ValueError` escapes `except OllamaError` and the whole request
fails before style assembly, logging the raw initial prompt in a FAILED
row. -/
theorem C8_enhancement_amended (args : TaskArgs) (db : DB) (env : TaskEnv)
    (sid : String) (henh : args.enhance_prompt = true) :
    (enhancementActive db = true → env.llm_positive = .error () →
      enhanceStage db env args =
        .ok (pyStr args.prompt, pyStr args.negative_prompt, false) ∧
      (run_generation_task .generate_image args db env sid
        ).log_data.llm_enhanced = false ∧
      (run_generation_task .generate_image args db env sid
        ).log_data.positive_prompt =
        joinNonEmpty (positiveParts db (pyStr args.prompt)
          (styleNamesToApply db args.style_names))) ∧
    (∀ p, enhancementActive db = true → env.llm_positive = .ok p →
      env.llm_negative = .error () →
      enhanceStage db env args = .ok (p, pyStr args.negative_prompt, false) ∧
      (run_generation_task .generate_image args db env sid
        ).log_data.llm_enhanced = false ∧
      (run_generation_task .generate_image args db env sid
        ).log_data.positive_prompt =
        joinNonEmpty (positiveParts db p
          (styleNamesToApply db args.style_names))) ∧
    (enhancementSkipped db = true →
      enhanceStage db env args =
        .ok (pyStr args.prompt, pyStr args.negative_prompt, false) ∧
      (run_generation_task .generate_image args db env sid
        ).log_data.llm_enhanced = false ∧
      (run_generation_task .generate_image args db env sid
        ).log_data.positive_prompt =
        joinNonEmpty (positiveParts db (pyStr args.prompt)
          (styleNamesToApply db args.style_names))) ∧
    (enhancementConstructorFails db = true →
      enhanceStage db env args =
        .error ("Ollama API URL and model name are required.") ∧
      (∃ m, (run_generation_task .generate_image args db env sid).messages =
        [Msg.chunkError sid m, Msg.streamEnd sid]) ∧
      (run_generation_task .generate_image args db env sid
        ).log_data.positive_prompt = pyStr args.prompt ∧
      (run_generation_task .generate_image args db env sid
        ).log_data.status = "FAILED") := by
  refine ⟨?_, ?_, ?_, ?_⟩
  · intro hact hpos
    have hstage := enhanceStage_active db env args henh hact
    rw [hpos] at hstage
    have hstage2 : enhanceStage db env args =
        .ok (pyStr args.prompt, pyStr args.negative_prompt, false) :=
      hstage.trans rfl
    obtain ⟨hP, hN, hF⟩ := genTask_log_of_enhance args db env sid _ _ _ hstage2
    exact ⟨hstage2, hF, hP⟩
  · intro p hact hpos hneg
    have hstage := enhanceStage_active db env args henh hact
    rw [hpos, hneg] at hstage
    have hstage2 : enhanceStage db env args =
        .ok (p, pyStr args.negative_prompt, false) := hstage.trans rfl
    obtain ⟨hP, hN, hF⟩ := genTask_log_of_enhance args db env sid _ _ _ hstage2
    exact ⟨hstage2, hF, hP⟩
  · intro hskip
    have hstage2 := enhanceStage_skipped db env args henh hskip
    obtain ⟨hP, hN, hF⟩ := genTask_log_of_enhance args db env sid _ _ _ hstage2
    exact ⟨hstage2, hF, hP⟩
  · intro hctor
    have hstage := enhanceStage_ctor_error db env args henh hctor
    have hbody : runBody .generate_image args db env =
        .error ("Ollama API URL and model name are required.",
          { initLogData .generate_image args with
              seed := some (args.seed.getD env.random_seed) }, false) := by
      unfold runBody preamble
      rw [hstage]
    refine ⟨hstage, ?_, ?_, ?_⟩ <;>
      unfold run_generation_task <;> rw [hbody]
    · exact ⟨_, rfl⟩
    · rfl
    · rfl

/-- Counterexample for C8 as stated: enhancement configured and active, the
positive LLM call succeeds with `ENHANCED`, the negative LLM call fails — the
request proceeds, `llm_enhanced` is logged false as the claim says, but the
final positive prompt is the ENHANCED one, not the style-assembled
non-enhanced prompt `orig`. -/
theorem C8_enhancement_cex :
    cex8args.enhance_prompt = true ∧
    cex8env.llm_negative = .error () ∧
    (run_generation_task .generate_image cex8args cex8db cex8env ("s")
      ).log_data.llm_enhanced = false ∧
    (run_generation_task .generate_image cex8args cex8db cex8env ("s")
      ).log_data.positive_prompt = "ENHANCED" ∧
    joinNonEmpty (positiveParts cex8db (pyStr cex8args.prompt)
      (styleNamesToApply cex8db cex8args.style_names)) = "orig" ∧
    ("ENHANCED" : String) ≠ "orig" :=
  ⟨rfl, rfl, rfl, rfl, rfl, by decide⟩

/-- Witness for the amended C8, both ways: a usable configuration whose
positive LLM call fails keeps the base prompt with `llm_enhanced = false`,
while an active instance with an empty base URL makes the whole request fail
with the raw prompt in a FAILED log row. -/
theorem C8_enhancement_amended_witness :
    (enhanceStage cex8db w8env cex8args =
      .ok (pyStr cex8args.prompt, pyStr cex8args.negative_prompt, false) ∧
    (run_generation_task .generate_image cex8args cex8db w8env ("s")
      ).log_data.llm_enhanced = false ∧
    (run_generation_task .generate_image cex8args cex8db w8env ("s")
      ).log_data.positive_prompt =
      joinNonEmpty (positiveParts cex8db (pyStr cex8args.prompt)
        (styleNamesToApply cex8db cex8args.style_names))) ∧
    (enhanceStage w8dbEmptyUrl w8env cex8args =
      .error ("Ollama API URL and model name are required.") ∧
    (∃ m, (run_generation_task .generate_image cex8args w8dbEmptyUrl w8env
      ("s")).messages = [Msg.chunkError ("s") m, Msg.streamEnd ("s")]) ∧
    (run_generation_task .generate_image cex8args w8dbEmptyUrl w8env ("s")
      ).log_data.positive_prompt = pyStr cex8args.prompt ∧
    (run_generation_task .generate_image cex8args w8dbEmptyUrl w8env ("s")
      ).log_data.status = "FAILED") :=
  ⟨(C8_enhancement_amended cex8args cex8db w8env ("s") rfl).1 (by decide) rfl,
   (C8_enhancement_amended cex8args w8dbEmptyUrl w8env ("s") rfl).2.2.2
     (by decide)⟩

/-- Helper: a predicate with at most one hit makes its holders all equal. -/
theorem eq_of_countP_le_one {l : List RenderType} {p : RenderType → Bool}
    (h : l.countP p ≤ 1) {a b : RenderType} (ha : a ∈ l) (hb : b ∈ l)
    (hpa : p a = true) (hpb : p b = true) : a = b := by
  have hfa : a ∈ l.filter p := List.mem_filter.mpr ⟨ha, hpa⟩
  have hfb : b ∈ l.filter p := List.mem_filter.mpr ⟨hb, hpb⟩
  have hlen : (l.filter p).length ≤ 1 := by
    rw [← List.countP_eq_length_filter]
    exact h
  cases hfl : l.filter p with
  | nil =>
    rw [hfl] at hfa
    cases hfa
  | cons x t =>
    rw [hfl] at hfa hfb hlen
    cases t with
    | nil =>
      rw [List.mem_singleton] at hfa hfb
      rw [hfa, hfb]
    | cons y t2 => simp at hlen

/-- Helper: a countP is unchanged by mapping a function that preserves the
predicate pointwise. -/
theorem countP_map_of_preserve (l : List RenderType)
    (f : RenderType → RenderType) (p : RenderType → Bool)
    (hf : ∀ rt, p (f rt) = p rt) :
    (l.map f).countP p = l.countP p := by
  rw [List.countP_map]
  have hpf : p ∘ f = p := by
    funext rt
    exact hf rt
  rw [hpf]

/-- Helper: with unique primary keys, at most one row matches a given id. -/
theorem countP_target_le_one (table : List RenderType) (rid : Nat)
    (hnodup : (table.map (fun rt => rt.id)).Nodup) :
    table.countP (fun rt => rt.id == rid) ≤ 1 := by
  have h1 : table.countP (fun rt => rt.id == rid) =
      (table.map (fun rt => rt.id)).countP (fun i => i == rid) := by
    rw [List.countP_map]
    rfl
  rw [h1]
  exact List.nodup_iff_count_le_one.mp hnodup rid

/-- Helper: after unsetting the first generation default, no row of the
intermediate table carries the generation-default flag (assuming the
at-most-one invariant). -/
theorem unset_gen_all_false (table : List RenderType)
    (hgen : table.countP (fun rt => rt.is_default_for_generation) ≤ 1) :
    ∀ rt1 ∈ unsetFirstGenDefault table,
      rt1.is_default_for_generation = false := by
  intro rt1 hmem
  unfold unsetFirstGenDefault at hmem
  cases hf : table.find? (fun rt => rt.is_default_for_generation) with
  | none =>
    rw [hf] at hmem
    have := List.find?_eq_none.mp hf rt1 hmem
    simpa using this
  | some c =>
    rw [hf] at hmem
    rw [List.mem_map] at hmem
    obtain ⟨rt0, h0, heq⟩ := hmem
    by_cases hid : (rt0.id == c.id) = true
    · rw [← heq, if_pos hid]
    · rw [← heq, if_neg hid]
      by_contra hP
      rw [Bool.not_eq_false] at hP
      have hcmem : c ∈ table := List.mem_of_find?_eq_some hf
      have hcP : c.is_default_for_generation = true := List.find?_some hf
      have h0c : rt0 = c := eq_of_countP_le_one hgen h0 hcmem hP hcP
      rw [h0c] at hid
      simp at hid

/-- Helper: after unsetting the first upscale default, no row of the
intermediate table carries the upscale-default flag. -/
theorem unset_up_all_false (table : List RenderType)
    (hup : table.countP (fun rt => rt.is_default_for_upscale) ≤ 1) :
    ∀ rt1 ∈ unsetFirstUpDefault table,
      rt1.is_default_for_upscale = false := by
  intro rt1 hmem
  unfold unsetFirstUpDefault at hmem
  cases hf : table.find? (fun rt => rt.is_default_for_upscale) with
  | none =>
    rw [hf] at hmem
    have := List.find?_eq_none.mp hf rt1 hmem
    simpa using this
  | some c =>
    rw [hf] at hmem
    rw [List.mem_map] at hmem
    obtain ⟨rt0, h0, heq⟩ := hmem
    by_cases hid : (rt0.id == c.id) = true
    · rw [← heq, if_pos hid]
    · rw [← heq, if_neg hid]
      by_contra hP
      rw [Bool.not_eq_false] at hP
      have hcmem : c ∈ table := List.mem_of_find?_eq_some hf
      have hcP : c.is_default_for_upscale = true := List.find?_some hf
      have h0c : rt0 = c := eq_of_countP_le_one hup h0 hcmem hP hcP
      rw [h0c] at hid
      simp at hid

/-- Helper: the id-count is unchanged by the unset step (generation). -/
theorem unset_gen_id_count (table : List RenderType) (rid : Nat) :
    (unsetFirstGenDefault table).countP (fun rt => rt.id == rid) =
      table.countP (fun rt => rt.id == rid) := by
  unfold unsetFirstGenDefault
  cases hf : table.find? (fun rt => rt.is_default_for_generation) with
  | none => rfl
  | some c =>
    apply countP_map_of_preserve
    intro rt
    by_cases hid : (rt.id == c.id) = true
    · rw [if_pos hid]
    · rw [if_neg hid]

/-- Helper: the id-count is unchanged by the unset step (upscale). -/
theorem unset_up_id_count (table : List RenderType) (rid : Nat) :
    (unsetFirstUpDefault table).countP (fun rt => rt.id == rid) =
      table.countP (fun rt => rt.id == rid) := by
  unfold unsetFirstUpDefault
  cases hf : table.find? (fun rt => rt.is_default_for_upscale) with
  | none => rfl
  | some c =>
    apply countP_map_of_preserve
    intro rt
    by_cases hid : (rt.id == c.id) = true
    · rw [if_pos hid]
    · rw [if_neg hid]

/-- Helper: the upscale-flag count is unchanged by the unset step for the
generation flag. -/
theorem unset_gen_up_count (table : List RenderType) :
    (unsetFirstGenDefault table).countP (fun rt => rt.is_default_for_upscale) =
      table.countP (fun rt => rt.is_default_for_upscale) := by
  unfold unsetFirstGenDefault
  cases hf : table.find? (fun rt => rt.is_default_for_generation) with
  | none => rfl
  | some c =>
    apply countP_map_of_preserve
    intro rt
    by_cases hid : (rt.id == c.id) = true
    · rw [if_pos hid]
    · rw [if_neg hid]

/-- Helper: the generation-flag count is unchanged by the unset step for the
upscale flag. -/
theorem unset_up_gen_count (table : List RenderType) :
    (unsetFirstUpDefault table).countP (fun rt => rt.is_default_for_generation) =
      table.countP (fun rt => rt.is_default_for_generation) := by
  unfold unsetFirstUpDefault
  cases hf : table.find? (fun rt => rt.is_default_for_upscale) with
  | none => rfl
  | some c =>
    apply countP_map_of_preserve
    intro rt
    by_cases hid : (rt.id == c.id) = true
    · rw [if_pos hid]
    · rw [if_neg hid]

/-- Helper: setting the generation flag on the rows with the target id, in a
table whose rows all have the flag clear, leaves at most as many flag holders
as target-id rows. -/
theorem set_gen_count_le (t1 : List RenderType) (rid : Nat)
    (hall : ∀ rt1 ∈ t1, rt1.is_default_for_generation = false) :
    (setGenDefaultOn t1 rid).countP
        (fun rt => rt.is_default_for_generation) ≤
      t1.countP (fun rt => rt.id == rid) := by
  unfold setGenDefaultOn
  have h1 : (t1.map (fun (rt : RenderType) =>
      if rt.id == rid then { rt with is_default_for_generation := true }
      else rt)).countP (fun rt => rt.is_default_for_generation) ≤
      (t1.map (fun (rt : RenderType) =>
        if rt.id == rid then { rt with is_default_for_generation := true }
        else rt)).countP (fun rt => rt.id == rid) := by
    apply List.countP_mono_left
    intro a ha hPa
    rw [List.mem_map] at ha
    obtain ⟨rt1, h1m, heq⟩ := ha
    by_cases hid : (rt1.id == rid) = true
    · rw [← heq, if_pos hid]
      exact hid
    · rw [← heq, if_neg hid] at hPa
      rw [hall rt1 h1m] at hPa
      cases hPa
  have h2 : (t1.map (fun (rt : RenderType) =>
      if rt.id == rid then { rt with is_default_for_generation := true }
      else rt)).countP (fun rt => rt.id == rid) =
      t1.countP (fun rt => rt.id == rid) := by
    apply countP_map_of_preserve
    intro rt
    by_cases hid : (rt.id == rid) = true
    · rw [if_pos hid]
    · rw [if_neg hid]
  rw [h2] at h1
  exact h1

/-- Mirror of `set_gen_count_le` for the upscale flag. -/
theorem set_up_count_le (t1 : List RenderType) (rid : Nat)
    (hall : ∀ rt1 ∈ t1, rt1.is_default_for_upscale = false) :
    (setUpDefaultOn t1 rid).countP (fun rt => rt.is_default_for_upscale) ≤
      t1.countP (fun rt => rt.id == rid) := by
  unfold setUpDefaultOn
  have h1 : (t1.map (fun (rt : RenderType) =>
      if rt.id == rid then { rt with is_default_for_upscale := true }
      else rt)).countP (fun rt => rt.is_default_for_upscale) ≤
      (t1.map (fun (rt : RenderType) =>
        if rt.id == rid then { rt with is_default_for_upscale := true }
        else rt)).countP (fun rt => rt.id == rid) := by
    apply List.countP_mono_left
    intro a ha hPa
    rw [List.mem_map] at ha
    obtain ⟨rt1, h1m, heq⟩ := ha
    by_cases hid : (rt1.id == rid) = true
    · rw [← heq, if_pos hid]
      exact hid
    · rw [← heq, if_neg hid] at hPa
      rw [hall rt1 h1m] at hPa
      cases hPa
  have h2 : (t1.map (fun (rt : RenderType) =>
      if rt.id == rid then { rt with is_default_for_upscale := true }
      else rt)).countP (fun rt => rt.id == rid) =
      t1.countP (fun rt => rt.id == rid) := by
    apply countP_map_of_preserve
    intro rt
    by_cases hid : (rt.id == rid) = true
    · rw [if_pos hid]
    · rw [if_neg hid]
  rw [h2] at h1
  exact h1

/-- Helper: the gen-flag count of the set step for the other flag, and vice
versa, are unchanged. -/
theorem set_gen_up_count (t1 : List RenderType) (rid : Nat) :
    (setGenDefaultOn t1 rid).countP (fun rt => rt.is_default_for_upscale) =
      t1.countP (fun rt => rt.is_default_for_upscale) := by
  unfold setGenDefaultOn
  apply countP_map_of_preserve
  intro rt
  by_cases hid : (rt.id == rid) = true
  · rw [if_pos hid]
  · rw [if_neg hid]

/-- Mirror of `set_gen_up_count`. -/
theorem set_up_gen_count (t1 : List RenderType) (rid : Nat) :
    (setUpDefaultOn t1 rid).countP (fun rt => rt.is_default_for_generation) =
      t1.countP (fun rt => rt.is_default_for_generation) := by
  unfold setUpDefaultOn
  apply countP_map_of_preserve
  intro rt
  by_cases hid : (rt.id == rid) = true
  · rw [if_pos hid]
  · rw [if_neg hid]

/-- C10 (confirmed).  Starting from a table with unique ids and at most
one default per mode, `set_default_render_type_for_mode` preserves the
invariant for both modes (it unsets the previous default before setting the
new one), and refuses — returning `None` with the table unchanged — when the
target render type's generation mode does not match the requested mode. -/
theorem C10_default_mode_invariant (table : List RenderType) (rid : Nat)
    (mode : DefaultMode)
    (hnodup : (table.map (fun rt => rt.id)).Nodup)
    (hgen : table.countP (fun rt => rt.is_default_for_generation) ≤ 1)
    (hup : table.countP (fun rt => rt.is_default_for_upscale) ≤ 1) :
    ((set_default_render_type_for_mode table rid mode).2.countP
        (fun rt => rt.is_default_for_generation) ≤ 1 ∧
      (set_default_render_type_for_mode table rid mode).2.countP
        (fun rt => rt.is_default_for_upscale) ≤ 1) ∧
    (∀ target, table.find? (fun rt => rt.id == rid) = some target →
      (mode = .generation → target.generation_mode ≠ "image_generation" →
        set_default_render_type_for_mode table rid mode = (none, table)) ∧
      (mode = .upscale → target.generation_mode ≠ "upscale" →
        set_default_render_type_for_mode table rid mode = (none, table))) := by
  constructor
  · unfold set_default_render_type_for_mode
    cases hfind : table.find? (fun rt => rt.id == rid) with
    | none => exact ⟨hgen, hup⟩
    | some target =>
      cases mode with
      | generation =>
        dsimp only
        by_cases hmode : (target.generation_mode != "image_generation") = true
        · rw [if_pos hmode]
          exact ⟨hgen, hup⟩
        · rw [if_neg hmode]
          dsimp only
          constructor
          · calc (setGenDefaultOn (unsetFirstGenDefault table) rid).countP
                  (fun rt => rt.is_default_for_generation)
                ≤ (unsetFirstGenDefault table).countP
                    (fun rt => rt.id == rid) :=
                  set_gen_count_le _ rid (unset_gen_all_false table hgen)
              _ = table.countP (fun rt => rt.id == rid) :=
                  unset_gen_id_count table rid
              _ ≤ 1 := countP_target_le_one table rid hnodup
          · rw [set_gen_up_count, unset_gen_up_count]
            exact hup
      | upscale =>
        dsimp only
        by_cases hmode : (target.generation_mode != "upscale") = true
        · rw [if_pos hmode]
          exact ⟨hgen, hup⟩
        · rw [if_neg hmode]
          dsimp only
          constructor
          · rw [set_up_gen_count, unset_up_gen_count]
            exact hgen
          · calc (setUpDefaultOn (unsetFirstUpDefault table) rid).countP
                  (fun rt => rt.is_default_for_upscale)
                ≤ (unsetFirstUpDefault table).countP
                    (fun rt => rt.id == rid) :=
                  set_up_count_le _ rid (unset_up_all_false table hup)
              _ = table.countP (fun rt => rt.id == rid) :=
                  unset_up_id_count table rid
              _ ≤ 1 := countP_target_le_one table rid hnodup
  · intro target hfind
    constructor
    · intro hm hne
      subst hm
      unfold set_default_render_type_for_mode
      rw [hfind]
      dsimp only
      rw [if_pos (by simpa using hne)]
    · intro hm hne
      subst hm
      unfold set_default_render_type_for_mode
      rw [hfind]
      dsimp only
      rw [if_pos (by simpa using hne)]

/-- Witness for C10: switching the generation default from row 1 to row 2
keeps at most one default per mode, and a mode-mismatched request (upscale
mode on an image-generation row) is refused. -/
theorem C10_default_mode_invariant_witness :
    ((set_default_render_type_for_mode w10table 2 .generation).2.countP
        (fun rt => rt.is_default_for_generation) ≤ 1 ∧
      (set_default_render_type_for_mode w10table 2 .generation).2.countP
        (fun rt => rt.is_default_for_upscale) ≤ 1) ∧
    ((set_default_render_type_for_mode w10table 2 .generation).1 ≠ none) ∧
    set_default_render_type_for_mode w10table 2 .upscale =
      (none, w10table) := by
  refine ⟨(C10_default_mode_invariant w10table 2 .generation (by decide)
    (by decide) (by decide)).1, by decide, ?_⟩
  have h := (C10_default_mode_invariant w10table 2 .upscale (by decide)
    (by decide) (by decide)).2
  have hfind : w10table.find? (fun rt => rt.id == 2) = some
      { id := 2, name := "G2", workflow_filename := "g2.json",
        is_visible := true, generation_mode := "image_generation",
        is_default_for_generation := false,
        is_default_for_upscale := false } := by decide
  exact (h _ hfind).2 rfl (by decide)
